import Mathlib

/-!
Verification of the smarthomelib core against its specification.

This file shallowly embeds the lifecycle state machines
(SmartHomeBase, SmartHomeClientBase, SmartHomeServerBase) and the
MQTT broker client (MqttBrokerClient) of the repository, and proves
or refutes the specification claims about them.

Modelling conventions:
- JavaScript `Date.now()` and `new Date()` values are modelled as
  integers (milliseconds since the epoch), supplied as explicit
  parameters wherever the source reads the clock.
- TypeScript `string | number | boolean` values are modelled by the
  inductive type SHValue.  Numbers are modelled as exact rationals;
  every float64 value is an exact dyadic rational, and the claims only
  exercise values (such as 23.5 and integer timestamps) whose float64
  representation is exact, so no floating-point rounding is involved.
- Event dispatch in the source (strongly-typed-events) is synchronous:
  all handlers run at the dispatch statement, before the statement
  following it executes.  A fired event is therefore recorded in the
  transition result together with the value of the guarded flag that a
  handler querying the instance would observe at that moment, namely
  the value the flag has at the dispatch statement in the source.
- Transport calls (mqtt publish/subscribe) and warning events are
  recorded in an ordered action trace; the list order is the execution
  order of the corresponding statements in the source.
- The JavaScript built-ins JSON.parse (only its `.val` projection is
  used by the source) and the JSON validity helper are treated as an
  abstract oracle pair (parseVal, isJson) that the inbound
  classification receives as parameters; every theorem about the
  classification holds for all choices of this oracle.
-/

/-- SHValue models the TypeScript union `string | number | boolean`
used for the value field of a status message (src/bases/SmartHomeBase.ts,
interface StatusMessage).  Numbers are exact rationals; see the header
comment on float64 values. -/
inductive SHValue where
  | str (s : String)
  | num (q : Rat)
  | boolean (b : Bool)
deriving DecidableEq

/-- StatusMessage mirrors the interface StatusMessage of
src/bases/SmartHomeBase.ts: a state report addressed by
system/room/device/feature carrying a value. -/
structure StatusMessage where
  system : String
  room : String
  device : String
  feature : String
  value : SHValue
deriving DecidableEq

/-- ActionMessage mirrors the interface ActionMessage of
src/bases/SmartHomeBase.ts: a command addressed by
system/room/device/feature/action. -/
structure ActionMessage where
  system : String
  room : String
  device : String
  feature : String
  action : String
deriving DecidableEq

/-- FiredEvent records one synchronous event dispatch.  For the guarded
lifecycle events the constructor carries the value of the guarded flag
that a handler querying the corresponding getter (isInitialized,
isConnected, isListening) observes during dispatch: the dispatch
statement precedes the flag mutation in the source, so this is the
value the field holds at the dispatch statement. -/
inductive FiredEvent where
  | init (observedInitialized : Bool)
  | activity
  | connect (observedConnected : Bool)
  | disconnect (observedConnected : Bool)
  | bind (observedListening : Bool)
  | unbind (observedListening : Bool)
  | statusMessage (m : StatusMessage)
  | actionMessage (m : ActionMessage)
deriving DecidableEq

/-- SmartHomeBaseState is the mutable state of the abstract class
SmartHomeBase (src/bases/SmartHomeBase.ts): the one-shot initialized
flag, the last-activity timestamp (initially `new Date(0)`, the epoch)
and the configured outdatedSec threshold (in seconds). -/
structure SmartHomeBaseState where
  initialized : Bool := false
  lastActivity : Int := 0
  outdatedSec : Int
deriving DecidableEq

/-- SmartHomeBaseState.onInit embeds SmartHomeBase.onInitialize: if the
flag is not set, the initialize event is dispatched (handlers observing
the still-unset flag) and then the flag is set; otherwise nothing
happens.  Source, src/bases/SmartHomeBase.ts:

  protected onInitialize(): void \x7b
    if (!this.initialized) \x7b
      this.onInitializeDispatcher.dispatch();
      this.initialized = true;
    \x7d
  \x7d
-/
def SmartHomeBaseState.onInit (s : SmartHomeBaseState) :
    SmartHomeBaseState × List FiredEvent :=
  if !s.initialized then
    ({ s with initialized := true }, [.init s.initialized])
  else
    (s, [])

/-- SmartHomeBaseState.onActive embeds SmartHomeBase.onActive together
with the handler subscribed in the constructor
(`this.onActivityDispatcher.subscribe(() => (this.lastActivity = new Date()))`):
dispatching the activity event unconditionally records the current time
as the last activity. -/
def SmartHomeBaseState.onActive (now : Int) (s : SmartHomeBaseState) :
    SmartHomeBaseState × List FiredEvent :=
  ({ s with lastActivity := now }, [.activity])

/-- SmartHomeBaseState.isActive embeds the getter SmartHomeBase.isActive:

  const outdated = new Date(Date.now() - this.outdatedSec * 1000);
  return outdated < this.lastActivity;

The getter reads the clock and two fields and mutates nothing, so it is
modelled as a pure function of the current time and the state. -/
def SmartHomeBaseState.isActive (now : Int) (s : SmartHomeBaseState) : Bool :=
  decide (now - s.outdatedSec * 1000 < s.lastActivity)

/-- SmartHomeClientBaseState is the state of SmartHomeClientBase
(src/bases/SmartHomeClientBase.ts): the base state plus the connected
flag, initially false. -/
structure SmartHomeClientBaseState extends SmartHomeBaseState where
  connected : Bool := false
deriving DecidableEq

/-- SmartHomeClientBaseState.onConnect embeds
SmartHomeClientBase.onConnect: guarded on the connected flag, the
connect event is dispatched first (handlers observing connected still
false) and the flag is set afterwards.  Source:

  protected onConnect(): void \x7b
    if (!this.connected) \x7b
      this.onConnectDispatcher.dispatch();
      this.connected = true;
    \x7d
  \x7d
-/
def SmartHomeClientBaseState.onConnect (s : SmartHomeClientBaseState) :
    SmartHomeClientBaseState × List FiredEvent :=
  if !s.connected then
    ({ s with connected := true }, [.connect s.connected])
  else
    (s, [])

/-- SmartHomeClientBaseState.onDisconnect embeds
SmartHomeClientBase.onDisconnect, the symmetric guarded transition:
dispatch (handlers observing connected still true), then clear the
flag. -/
def SmartHomeClientBaseState.onDisconnect (s : SmartHomeClientBaseState) :
    SmartHomeClientBaseState × List FiredEvent :=
  if s.connected then
    ({ s with connected := false }, [.disconnect s.connected])
  else
    (s, [])

/-- SmartHomeServerBaseState is the state of SmartHomeServerBase
(src/bases/SmartHomeServerBase.ts): the base state plus the listening
flag, initially false. -/
structure SmartHomeServerBaseState extends SmartHomeBaseState where
  listening : Bool := false
deriving DecidableEq

/-- SmartHomeServerBaseState.onBind embeds SmartHomeServerBase.onBind:
guarded on the listening flag, dispatch first (handlers observing
listening still false), then set the flag. -/
def SmartHomeServerBaseState.onBind (s : SmartHomeServerBaseState) :
    SmartHomeServerBaseState × List FiredEvent :=
  if !s.listening then
    ({ s with listening := true }, [.bind s.listening])
  else
    (s, [])

/-- SmartHomeServerBaseState.onUnbind embeds
SmartHomeServerBase.onUnbind, the symmetric guarded transition. -/
def SmartHomeServerBaseState.onUnbind (s : SmartHomeServerBaseState) :
    SmartHomeServerBaseState × List FiredEvent :=
  if s.listening then
    ({ s with listening := false }, [.unbind s.listening])
  else
    (s, [])

/-- isConnectEvent recognises a fired connect event, regardless of the
flag value the handlers observed. -/
def isConnectEvent : FiredEvent → Bool
  | .connect _ => true
  | _ => false

/-- isDisconnectEvent recognises a fired disconnect event. -/
def isDisconnectEvent : FiredEvent → Bool
  | .disconnect _ => true
  | _ => false

/-- isBindEvent recognises a fired bind event. -/
def isBindEvent : FiredEvent → Bool
  | .bind _ => true
  | _ => false

/-- isUnbindEvent recognises a fired unbind event. -/
def isUnbindEvent : FiredEvent → Bool
  | .unbind _ => true
  | _ => false

/-- hexDigitChar gives the lowercase hex digit for a value below 16,
used for the \u00XX escapes JSON.stringify emits for control
characters. -/
def hexDigitChar (n : Nat) : Char :=
  if n < 10 then Char.ofNat (48 + n) else Char.ofNat (87 + n)

/-- jsonEscapeChar models how JSON.stringify escapes one character of a
string value: quote, backslash and the named control escapes get a
backslash form, the remaining control characters a \u00XX form, and
every other character is emitted verbatim. -/
def jsonEscapeChar (ch : Char) : String :=
  if ch = '"' then "\\\""
  else if ch = '\\' then "\\\\"
  else if ch = '\n' then "\\n"
  else if ch = '\r' then "\\r"
  else if ch = '\t' then "\\t"
  else if ch = '\x08' then "\\b"
  else if ch = '\x0c' then "\\f"
  else if ch.toNat < 32 then
    "\\u00" ++ String.singleton (hexDigitChar (ch.toNat / 16)) ++
      String.singleton (hexDigitChar (ch.toNat % 16))
  else
    String.singleton ch

/-- jsonEscapeString models JSON.stringify on a string value, quotes
included. -/
def jsonEscapeString (s : String) : String :=
  "\"" ++ String.join (s.toList.map jsonEscapeChar) ++ "\""

/-- pow10Exponent finds the least k with den dividing 10 ^ k, searching
far enough for every float64 denominator (a power of two not above
2 ^ 1074). -/
def pow10Exponent (den : Nat) : Option Nat :=
  (List.range 1100).find? (fun k => 10 ^ k % den == 0)

/-- insertDecimalPoint places a decimal point k digits from the right of
a digit string, padding with leading zeros as needed; with k = 0 the
string is returned unchanged. -/
def insertDecimalPoint (s : String) (k : Nat) : String :=
  if k = 0 then s
  else
    let ds := s.toList
    if ds.length ≤ k then
      "0." ++ String.mk (List.replicate (k - ds.length) '0') ++ s
    else
      String.mk (ds.take (ds.length - k)) ++ "." ++
        String.mk (ds.drop (ds.length - k))

/-- ratToJsonString models how JavaScript prints a float64 number whose
value is an exact decimal (shortest decimal form, as JSON.stringify
emits for such values; every value the claims exercise, such as 23.5
and integer timestamps, is of this kind).  Minimality of the exponent
guarantees no trailing zero after the point.  The fallback branch is
unreachable for float64 values, whose denominators are powers of two. -/
def ratToJsonString (q : Rat) : String :=
  match pow10Exponent q.den with
  | some k =>
      (if q.num < 0 then "-" else "") ++
        insertDecimalPoint (toString (q.num.natAbs * 10 ^ k / q.den)) k
  | none => toString q.num ++ "/" ++ toString q.den

/-- SHValue.toJsonString models JSON.stringify applied to a
`string | number | boolean` value. -/
def SHValue.toJsonString : SHValue → String
  | .str s => jsonEscapeString s
  | .num q => ratToJsonString q
  | .boolean b => if b then "true" else "false"

/-- statusTopic builds the status topic exactly as
MqttBrokerClient.publishStatus does:
`${message.system}/${message.room}/${message.device}/${message.feature}`. -/
def statusTopic (m : StatusMessage) : String :=
  m.system ++ "/" ++ m.room ++ "/" ++ m.device ++ "/" ++ m.feature

/-- actionTopic builds the action topic exactly as
MqttBrokerClient.publishAction does:
`${message.system}/${message.room}/${message.device}/${message.feature}/${message.action}`. -/
def actionTopic (m : ActionMessage) : String :=
  m.system ++ "/" ++ m.room ++ "/" ++ m.device ++ "/" ++ m.feature ++ "/" ++ m.action

/-- statusBody models JSON.stringify(\x7b ts: Date.now(), val: message.value \x7d):
JavaScript object literals keep insertion order and JSON.stringify
emits no whitespace, so the body is the ts field followed by the val
field. -/
def statusBody (ts : Int) (v : SHValue) : String :=
  "\x7b\"ts\":" ++ toString ts ++ ",\"val\":" ++ v.toJsonString ++ "\x7d"

/-- actionBody models JSON.stringify(\x7b ts: Date.now() \x7d), the body of a
published action message: a single ts field, no val and no action
field. -/
def actionBody (ts : Int) : String :=
  "\x7b\"ts\":" ++ toString ts ++ "\x7d"

/-- splitCharsOn models JavaScript String.prototype.split with a
one-character separator, on the character list of the string: the
result always has one more entry than the number of separator
occurrences, so the empty string yields [""] and adjacent separators
yield empty segments, exactly as in JavaScript. -/
def splitCharsOn (sep : Char) : List Char → List String
  | [] => [""]
  | ch :: rest =>
      let r := splitCharsOn sep rest
      if ch = sep then "" :: r
      else
        match r with
        | [] => [String.singleton ch]
        | h :: t => (String.singleton ch ++ h) :: t

/-- jsSplit models `s.split(sep)` of JavaScript for a one-character
separator. -/
def jsSplit (sep : Char) (s : String) : List String :=
  splitCharsOn sep s.toList

/-- TransportPub is one publish call handed to the mqtt transport:
topic, payload and the options object \x7b retain, qos \x7d. -/
structure TransportPub where
  topic : String
  payload : String
  retain : Bool
  qos : Nat
deriving DecidableEq

/-- ClientAction is one externally visible step of the MQTT broker
client, in execution order: a transport publish, a transport subscribe,
a warning event, or a dispatched lifecycle/message event. -/
inductive ClientAction where
  | pub (p : TransportPub)
  | sub (topic : String)
  | warn (message : String)
  | fired (e : FiredEvent)
deriving DecidableEq

/-- MqttWill is the last-will configuration passed to mqtt.connect once
at connection setup. -/
structure MqttWill where
  topic : String
  payload : String
  retain : Bool
  qos : Nat
deriving DecidableEq

/-- ConnCode is the argument type of publishConnected, the TypeScript
literal union `'1' | '2'`: by construction no other payload can be
passed to it. -/
inductive ConnCode where
  | one
  | two
deriving DecidableEq

/-- ConnCode.toStr is the payload string of a connectivity code. -/
def ConnCode.toStr : ConnCode → String
  | .one => "1"
  | .two => "2"

/-- MqttBrokerClient is the state of the class MqttBrokerClient
(src/modules, MQTT broker client): the peer-role base state plus the
optional transport handle (clientDefined models `this.client !== undefined`)
and the configured system name. -/
structure MqttBrokerClient extends SmartHomeClientBaseState where
  clientDefined : Bool := false
  system : String
deriving DecidableEq

/-- connectedTopic is the reserved per-system liveness topic
`${this.system}/connected`. -/
def connectedTopic (c : MqttBrokerClient) : String :=
  c.system ++ "/connected"

/-- MqttBrokerClient.publishConnected embeds publishConnected: with a
transport handle it publishes the one-character code to the liveness
topic, retained, qos 2; otherwise it only fires a warning.  Source:

  publishConnected(connected: '1' | '2'): void \x7b
    if (this.client !== undefined) \x7b
      this.client.publish(`$\x7bthis.system\x7d/connected`, connected, \x7b retain: true, qos: 2 \x7d);
    \x7d else \x7b
      this.onWarning('MQTT broker not initialized, unable to publish the connection state.');
    \x7d
  \x7d
-/
def MqttBrokerClient.publishConnected (code : ConnCode) (c : MqttBrokerClient) :
    MqttBrokerClient × List ClientAction :=
  if c.clientDefined then
    (c, [.pub ⟨connectedTopic c, code.toStr, true, 2⟩])
  else
    (c, [.warn "MQTT broker not initialized, unable to publish the connection state."])

/-- MqttBrokerClient.publishStatus embeds publishStatus: with a
transport handle it publishes the status topic with the
\x7bts, val\x7d JSON body at qos 2; otherwise it fires a warning and the
message is dropped.  The guard tests only `this.client !== undefined`;
the connected flag is not consulted. -/
def MqttBrokerClient.publishStatus (ts : Int) (m : StatusMessage) (retain : Bool)
    (c : MqttBrokerClient) : MqttBrokerClient × List ClientAction :=
  if c.clientDefined then
    (c, [.pub ⟨statusTopic m, statusBody ts m.value, retain, 2⟩])
  else
    (c, [.warn "MQTT broker not initialized, unable to publish the status message."])

/-- MqttBrokerClient.publishAction embeds publishAction: with a
transport handle it publishes the action topic with the \x7bts\x7d JSON
body at qos 2; otherwise it fires a warning and the message is
dropped.  The guard tests only the transport handle. -/
def MqttBrokerClient.publishAction (ts : Int) (m : ActionMessage) (retain : Bool)
    (c : MqttBrokerClient) : MqttBrokerClient × List ClientAction :=
  if c.clientDefined then
    (c, [.pub ⟨actionTopic m, actionBody ts, retain, 2⟩])
  else
    (c, [.warn "MQTT broker not initialized, unable to publish the action message."])

/-- MqttBrokerClient.subscribeStatus embeds subscribeStatus with its
arguments made explicit (the source defaults system to `this.system`
and the remaining segments to the wildcard "+"): with a transport
handle it issues the subscribe call, otherwise it fires a warning. -/
def MqttBrokerClient.subscribeStatus (system room device feature : String)
    (c : MqttBrokerClient) : MqttBrokerClient × List ClientAction :=
  if c.clientDefined then
    (c, [.sub (system ++ "/" ++ room ++ "/" ++ device ++ "/" ++ feature)])
  else
    (c, [.warn "MQTT broker not initialized, unable to subscribe to status message."])

/-- MqttBrokerClient.subscribeAction embeds subscribeAction with its
arguments made explicit (defaults as in subscribeStatus, plus the
action segment defaulting to "+"). -/
def MqttBrokerClient.subscribeAction (system room device feature action : String)
    (c : MqttBrokerClient) : MqttBrokerClient × List ClientAction :=
  if c.clientDefined then
    (c, [.sub (system ++ "/" ++ room ++ "/" ++ device ++ "/" ++ feature ++ "/" ++ action)])
  else
    (c, [.warn "MQTT broker not initialized, unable to subscribe to action message."])

/-- MqttBrokerClient.handleMessage embeds the private handleMessage: the
received payload string (not the topic) is split on '/'; four segments
with a JSON-valid payload dispatch a status message whose value is the
val field of the parsed body, five segments dispatch an action message
with no JSON validation, and every other shape fires a warning and
drops the message.  The JSON oracle pair stands for the built-in
JSON.parse (projected to .val) and the isValidJSON helper; the match on
the split result is the length test of the source (`topics.length === 4`,
`topics.length === 5`).  Source:

  private handleMessage(topic: string, message: string): void \x7b
    const topics: string[] = message.split('/');
    if (topics.length === 4 && MqttBrokerClient.isValidJSON(message)) \x7b
      this.onStatusMessage(\x7b system: topics[0], room: topics[1], device: topics[2],
        feature: topics[3], value: JSON.parse(message).val \x7d);
    \x7d else if (topics.length === 5) \x7b
      this.onActionMessage(\x7b system: topics[0], room: topics[1], device: topics[2],
        feature: topics[3], action: topics[4] \x7d);
    \x7d else \x7b
      this.onWarning(`Unknown message received on topic '$\x7btopic\x7d': $\x7bmessage\x7d`);
    \x7d
  \x7d
-/
def MqttBrokerClient.handleMessage (parseVal : String → SHValue)
    (isJson : String → Bool) (topic message : String) : List ClientAction :=
  match jsSplit '/' message with
  | [s, r, d, f] =>
      if isJson message then
        [.fired (.statusMessage ⟨s, r, d, f, parseVal message⟩)]
      else
        [.warn ("Unknown message received on topic \x27" ++ topic ++ "\x27: " ++ message)]
  | [s, r, d, f, a] =>
      [.fired (.actionMessage ⟨s, r, d, f, a⟩)]
  | _ =>
      [.warn ("Unknown message received on topic \x27" ++ topic ++ "\x27: " ++ message)]

/-- MqttBrokerClient.handleMqttConnect embeds the callback registered on
the transport connect event:

  this.client.on('connect', () => \x7b
    this.publishConnected('1');
    this.onConnect();
  \x7d);

The trace is the publishConnected actions followed by the connect
transition events, in that statement order. -/
def MqttBrokerClient.handleMqttConnect (c : MqttBrokerClient) :
    MqttBrokerClient × List ClientAction :=
  let r1 := c.publishConnected .one
  let r2 := r1.1.toSmartHomeClientBaseState.onConnect
  ({ r1.1 with toSmartHomeClientBaseState := r2.1 },
    r1.2 ++ r2.2.map ClientAction.fired)

/-- MqttBrokerClient.handleMqttClose embeds the callback registered on
the transport close event, which only runs the guarded disconnect
transition. -/
def MqttBrokerClient.handleMqttClose (c : MqttBrokerClient) :
    MqttBrokerClient × List ClientAction :=
  let r := c.toSmartHomeClientBaseState.onDisconnect
  ({ c with toSmartHomeClientBaseState := r.1 }, r.2.map ClientAction.fired)

/-- MqttBrokerClient.mqttInit embeds MqttBrokerClient.initialize: if the
base is not initialized, the transport client is created with the
last-will options (liveness topic, payload "0", retained, qos 2), the
connect/close/message/error callbacks are registered, and the
initialize transition fires; otherwise only a warning fires.  The
returned MqttWill is the will configuration handed to mqtt.connect
(a connection option, not a publish performed by application code). -/
def MqttBrokerClient.mqttInit (c : MqttBrokerClient) :
    MqttBrokerClient × Option MqttWill × List ClientAction :=
  if !c.initialized then
    let c1 := { c with clientDefined := true }
    let r := c1.toSmartHomeBaseState.onInit
    ({ c1 with toSmartHomeBaseState := r.1 },
      some ⟨connectedTopic c, "0", true, 2⟩,
      r.2.map ClientAction.fired)
  else
    (c, none, [.warn "MQTT broker already initialized."])

/-- Modelled from the spec: the Subscription Registry of the message bus
client.  The registry itself (`an ordered sequence of topic filter
strings previously requested by the application; insertion order is
preserved and duplicates are allowed`) and its replay on reconnect are
described in spec sections 3 and 4.4, but the head revision of the MQTT
broker client file that implements them is not part of the src/
snapshot (the snapshot holds earlier revisions whose subscribe methods
call the transport directly, keeping no registry); the registry and the
replay are therefore modelled from the words of the spec. -/
structure MqttRegClient where
  connected : Bool
  system : String
  subscriptions : List String
deriving DecidableEq

/-- Modelled from the spec: `subscribeStatus(system?, room?, device?,
feature?)` builds a topic filter (missing segments default to the
wildcard "+"), appends it to the Subscription Registry and, if
currently connected, issues the subscribe call immediately (spec
section 4.4, Subscription replay). -/
def MqttRegClient.subscribeStatusReg (system room device feature : String)
    (c : MqttRegClient) : MqttRegClient × List ClientAction :=
  let topic := system ++ "/" ++ room ++ "/" ++ device ++ "/" ++ feature
  ({ c with subscriptions := c.subscriptions ++ [topic] },
    if c.connected then [.sub topic] else [])

/-- Modelled from the spec: `subscribeAction(system?, room?, device?,
feature?, action?)` with the same registry append and immediate
subscribe as subscribeStatusReg (spec section 4.4). -/
def MqttRegClient.subscribeActionReg (system room device feature action : String)
    (c : MqttRegClient) : MqttRegClient × List ClientAction :=
  let topic := system ++ "/" ++ room ++ "/" ++ device ++ "/" ++ feature ++ "/" ++ action
  ({ c with subscriptions := c.subscriptions ++ [topic] },
    if c.connected then [.sub topic] else [])

/-- SubReq is one application subscribe request, used to quantify over
arbitrary sequences of subscribeStatus/subscribeAction calls. -/
inductive SubReq where
  | status (system room device feature : String)
  | action (system room device feature act : String)
deriving DecidableEq

/-- subReqTopic is the topic filter a request builds (segments already
defaulted to "+" where the caller omitted them). -/
def subReqTopic : SubReq → String
  | .status s r d f => s ++ "/" ++ r ++ "/" ++ d ++ "/" ++ f
  | .action s r d f a => s ++ "/" ++ r ++ "/" ++ d ++ "/" ++ f ++ "/" ++ a

/-- applySubReq performs one subscribe request on the spec-modelled
client. -/
def applySubReq (c : MqttRegClient) : SubReq → MqttRegClient × List ClientAction
  | .status s r d f => c.subscribeStatusReg s r d f
  | .action s r d f a => c.subscribeActionReg s r d f a

/-- applySubReqs performs a sequence of subscribe requests in order,
concatenating the emitted actions. -/
def applySubReqs (c : MqttRegClient) : List SubReq → MqttRegClient × List ClientAction
  | [] => (c, [])
  | req :: rest =>
      let r1 := applySubReq c req
      let r2 := applySubReqs r1.1 rest
      (r2.1, r1.2 ++ r2.2)

/-- Modelled from the spec: on every reconnect event the client
re-issues a subscribe call to the transport for every entry of the
Subscription Registry, in registry order, before resuming normal
message dispatch (spec section 4.4, Subscription replay). -/
def MqttRegClient.replayOnConnect (c : MqttRegClient) : List ClientAction :=
  c.subscriptions.map ClientAction.sub

/-- Modelled from the spec: the device-liveness watchdog of the message
bus client.  setDeviceConnectedCallback and the periodic timer that
invokes the registered zero-argument predicate are described in spec
section 4.4 (Health watchdogs) and confirmed by the changelog entry
`Added: Callback function for device connection state in the
MqttClient`, but the head revision of the client file implementing them
is not part of the src/ snapshot; they are modelled from the words of
the spec.  cbRegistered records whether setDeviceConnectedCallback has
been called. -/
structure DeviceWatchdog where
  system : String
  cbRegistered : Bool := false
deriving DecidableEq

/-- Modelled from the spec: setDeviceConnectedCallback registers the
zero-argument predicate supplied by the owning application. -/
def DeviceWatchdog.setDeviceConnectedCallback (w : DeviceWatchdog) : DeviceWatchdog :=
  { w with cbRegistered := true }

/-- Modelled from the spec: one tick of the device-liveness timer.  The
injected predicate is invoked (its current result is the Bool argument,
since the predicate reports the mutable outside world) and the result
is translated to connectivity code "2" (true) or "1" (false) and
published to the liveness topic, retained, qos 2, on every tick
regardless of the previously published value. -/
def DeviceWatchdog.tick (w : DeviceWatchdog) (predicateResult : Bool) : List ClientAction :=
  if w.cbRegistered then
    [.pub ⟨w.system ++ "/connected", if predicateResult then "2" else "1", true, 2⟩]
  else
    []

/-- DeviceWatchdog.run is a sequence of timer ticks; the list holds the
predicate result observed at each tick, in tick order. -/
def DeviceWatchdog.run (w : DeviceWatchdog) : List Bool → List ClientAction
  | [] => []
  | b :: rest => w.tick b ++ w.run rest

/-- rat235 is the rational 23.5 given with explicit numerator and
denominator, so that the kernel can evaluate the model on it (the
decimal literal elaborates through OfScientific, whose normalisation is
not kernel-reducible); rat235_eq below identifies it with the
literal. -/
def rat235 : Rat := ⟨47, 2, by norm_num, by norm_num⟩

/-- isPubAction recognises a transport publish in an action trace. -/
def isPubAction : ClientAction → Bool
  | .pub _ => true
  | _ => false

/-- isWarnAction recognises a fired warning in an action trace. -/
def isWarnAction : ClientAction → Bool
  | .warn _ => true
  | _ => false

/-- AppCall enumerates the entry points of the MQTT broker client: its
public methods (with the clock value and the message passed by the
caller made explicit) and the transport callbacks registered in
initialize. -/
inductive AppCall where
  | mqttInitCall
  | mqttConnectCb
  | mqttCloseCb
  | message (topic payload : String)
  | subStatus (system room device feature : String)
  | subAction (system room device feature act : String)
  | pubStatus (now : Int) (m : StatusMessage) (retain : Bool)
  | pubAction (now : Int) (m : ActionMessage) (retain : Bool)
  | pubConnected (code : ConnCode)
deriving DecidableEq

/-- MqttBrokerClient.step runs one entry point of the client and
returns the successor state with the emitted action trace; it is used
to quantify over everything application code can make the client do. -/
def MqttBrokerClient.step (parseVal : String → SHValue) (isJson : String → Bool)
    (c : MqttBrokerClient) : AppCall → MqttBrokerClient × List ClientAction
  | .mqttInitCall => ((c.mqttInit).1, (c.mqttInit).2.2)
  | .mqttConnectCb => c.handleMqttConnect
  | .mqttCloseCb => c.handleMqttClose
  | .message topic payload => (c, MqttBrokerClient.handleMessage parseVal isJson topic payload)
  | .subStatus s r d f => c.subscribeStatus s r d f
  | .subAction s r d f a => c.subscribeAction s r d f a
  | .pubStatus now m retain => c.publishStatus now m retain
  | .pubAction now m retain => c.publishAction now m retain
  | .pubConnected code => c.publishConnected code

/-- C3: for every peer-role instance, calling the connect transition
twice in a row (from the non-connected state the guard addresses) fires
the connect event exactly once and leaves connected = true;
symmetrically for disconnect, and for bind/unbind on listener-role
instances; a transition invoked while the flag already has the target
value performs no state change and fires no event. -/
theorem guarded_transitions_idempotent
    (c : SmartHomeClientBaseState) (s : SmartHomeServerBaseState) :
    (c.connected = false →
      (c.onConnect.2 ++ c.onConnect.1.onConnect.2).countP isConnectEvent = 1 ∧
      c.onConnect.1.onConnect.1.connected = true) ∧
    (c.connected = true → c.onConnect = (c, [])) ∧
    (c.connected = true →
      (c.onDisconnect.2 ++ c.onDisconnect.1.onDisconnect.2).countP isDisconnectEvent = 1 ∧
      c.onDisconnect.1.onDisconnect.1.connected = false) ∧
    (c.connected = false → c.onDisconnect = (c, [])) ∧
    (s.listening = false →
      (s.onBind.2 ++ s.onBind.1.onBind.2).countP isBindEvent = 1 ∧
      s.onBind.1.onBind.1.listening = true) ∧
    (s.listening = true → s.onBind = (s, [])) ∧
    (s.listening = true →
      (s.onUnbind.2 ++ s.onUnbind.1.onUnbind.2).countP isUnbindEvent = 1 ∧
      s.onUnbind.1.onUnbind.1.listening = false) ∧
    (s.listening = false → s.onUnbind = (s, [])) := by
  refine ⟨?_, ?_, ?_, ?_, ?_, ?_, ?_, ?_⟩ <;> intro h <;>
    simp [SmartHomeClientBaseState.onConnect, SmartHomeClientBaseState.onDisconnect,
      SmartHomeServerBaseState.onBind, SmartHomeServerBaseState.onUnbind,
      isConnectEvent, isDisconnectEvent, isBindEvent, isUnbindEvent, h]

/-- Witness for guarded_transitions_idempotent at concrete fresh and
already-toggled instances. -/
theorem guarded_transitions_idempotent_witness :
    (((⟨⟨false, 0, 15⟩, false⟩ : SmartHomeClientBaseState).onConnect.2 ++
      (⟨⟨false, 0, 15⟩, false⟩ : SmartHomeClientBaseState).onConnect.1.onConnect.2).countP
        isConnectEvent = 1) ∧
    ((⟨⟨false, 0, 15⟩, true⟩ : SmartHomeClientBaseState).onConnect =
      (⟨⟨false, 0, 15⟩, true⟩, [])) ∧
    ((⟨⟨false, 0, 15⟩, false⟩ : SmartHomeServerBaseState).onBind.1.onBind.1.listening = true) ∧
    ((⟨⟨false, 0, 15⟩, false⟩ : SmartHomeServerBaseState).onUnbind =
      (⟨⟨false, 0, 15⟩, false⟩, [])) :=
  ⟨((guarded_transitions_idempotent ⟨⟨false, 0, 15⟩, false⟩ ⟨⟨false, 0, 15⟩, false⟩).1 rfl).1,
   (guarded_transitions_idempotent ⟨⟨false, 0, 15⟩, true⟩ ⟨⟨false, 0, 15⟩, false⟩).2.1 rfl,
   ((guarded_transitions_idempotent ⟨⟨false, 0, 15⟩, false⟩ ⟨⟨false, 0, 15⟩, false⟩).2.2.2.2.1 rfl).2,
   (guarded_transitions_idempotent ⟨⟨false, 0, 15⟩, false⟩ ⟨⟨false, 0, 15⟩, false⟩).2.2.2.2.2.2.2 rfl⟩

/-- C10: in every guarded transition the event is dispatched before the
flag is mutated, so a handler that queries the corresponding getter
synchronously during dispatch observes the pre-transition value: the
observed value recorded with each fired event equals the flag before
the transition and is the negation of the flag after it (in particular
isConnected returns false inside a connect-event handler). -/
theorem dispatch_observes_pre_transition_state
    (b : SmartHomeBaseState) (c : SmartHomeClientBaseState)
    (s : SmartHomeServerBaseState) :
    (∀ o, FiredEvent.init o ∈ b.onInit.2 →
      o = b.initialized ∧ o = false ∧ b.onInit.1.initialized = true) ∧
    (∀ o, FiredEvent.connect o ∈ c.onConnect.2 →
      o = c.connected ∧ o = false ∧ c.onConnect.1.connected = true) ∧
    (∀ o, FiredEvent.disconnect o ∈ c.onDisconnect.2 →
      o = c.connected ∧ o = true ∧ c.onDisconnect.1.connected = false) ∧
    (∀ o, FiredEvent.bind o ∈ s.onBind.2 →
      o = s.listening ∧ o = false ∧ s.onBind.1.listening = true) ∧
    (∀ o, FiredEvent.unbind o ∈ s.onUnbind.2 →
      o = s.listening ∧ o = true ∧ s.onUnbind.1.listening = false) := by
  refine ⟨?_, ?_, ?_, ?_, ?_⟩ <;> intro o ho
  · by_cases hb : b.initialized <;>
      simp [SmartHomeBaseState.onInit, hb] at ho ⊢ <;> simp [ho, hb]
  · by_cases hc : c.connected <;>
      simp [SmartHomeClientBaseState.onConnect, hc] at ho ⊢ <;> simp [ho, hc]
  · by_cases hc : c.connected <;>
      simp [SmartHomeClientBaseState.onDisconnect, hc] at ho ⊢ <;> simp [ho, hc]
  · by_cases hs : s.listening <;>
      simp [SmartHomeServerBaseState.onBind, hs] at ho ⊢ <;> simp [ho, hs]
  · by_cases hs : s.listening <;>
      simp [SmartHomeServerBaseState.onUnbind, hs] at ho ⊢ <;> simp [ho, hs]

/-- Witness for dispatch_observes_pre_transition_state: on a fresh
client the connect event fires with observed connected = false while
the post-transition flag is true. -/
theorem dispatch_observes_pre_transition_state_witness :
    (false = (⟨⟨false, 0, 15⟩, false⟩ : SmartHomeClientBaseState).connected ∧
     false = false ∧
     (⟨⟨false, 0, 15⟩, false⟩ : SmartHomeClientBaseState).onConnect.1.connected = true) :=
  (dispatch_observes_pre_transition_state ⟨false, 0, 15⟩ ⟨⟨false, 0, 15⟩, false⟩
    ⟨⟨false, 0, 15⟩, false⟩).2.1 false (by decide)

/-- C4: isActive is true iff now minus the last-activity timestamp is
below the configured threshold (outdatedSec seconds, compared in
milliseconds); for an instance with threshold 15 s constructed at an
epoch-time past the threshold, isActive is false immediately after
construction (lastActivity is the epoch), true immediately after the
activity event records the current time, and false again once more
than the threshold elapses with no further activity; the getter is
modelled as a pure function, mutating nothing. -/
theorem isActive_threshold_query
    (s : SmartHomeBaseState) (now t u : Int) :
    (s.isActive now = true ↔ now - s.lastActivity < s.outdatedSec * 1000) ∧
    (s.outdatedSec = 15 → s.lastActivity = 0 → 15000 < now → s.isActive now = false) ∧
    (s.outdatedSec = 15 → (s.onActive t).1.isActive t = true) ∧
    (s.outdatedSec = 15 → 15000 < u - t → (s.onActive t).1.isActive u = false) := by
  refine ⟨?_, ?_, ?_, ?_⟩
  · simp only [SmartHomeBaseState.isActive, decide_eq_true_eq]
    omega
  · intro h1 h2 h3
    simp only [SmartHomeBaseState.isActive, decide_eq_false_iff_not, not_lt]
    omega
  · intro h1
    simp only [SmartHomeBaseState.isActive, SmartHomeBaseState.onActive, decide_eq_true_eq]
    omega
  · intro h1 h2
    simp only [SmartHomeBaseState.isActive, SmartHomeBaseState.onActive,
      decide_eq_false_iff_not, not_lt]
    omega

/-- Witness for isActive_threshold_query on a freshly constructed
15-second instance at time 20000 ms, with activity at 20000 ms and a
later query at 36000 ms. -/
theorem isActive_threshold_query_witness :
    ((⟨false, 0, 15⟩ : SmartHomeBaseState).isActive 20000 = false) ∧
    (((⟨false, 0, 15⟩ : SmartHomeBaseState).onActive 20000).1.isActive 20000 = true) ∧
    (((⟨false, 0, 15⟩ : SmartHomeBaseState).onActive 20000).1.isActive 36000 = false) :=
  ⟨(isActive_threshold_query ⟨false, 0, 15⟩ 20000 0 0).2.1 rfl rfl (by decide),
   (isActive_threshold_query ⟨false, 0, 15⟩ 0 20000 0).2.2.1 rfl,
   (isActive_threshold_query ⟨false, 0, 15⟩ 0 20000 36000).2.2.2 rfl (by decide)⟩

/-- C2: for every received (topic, payload) pair, the client splits the
payload string on '/'; exactly four segments with a JSON-valid payload
dispatch a status message built from segments 0-3 and the parsed val
field; exactly five segments dispatch an action message built from
segments 0-4 with no JSON validation; every other shape (a segment
count other than 4 and 5, or four segments with an invalid body) fires
a warning and the message is dropped, dispatching no status or action
event.  The statement holds for every JSON oracle (parseVal, isJson). -/
theorem inbound_classification
    (parseVal : String → SHValue) (isJson : String → Bool) (topic message : String) :
    (∀ s r d f, jsSplit '/' message = [s, r, d, f] → isJson message = true →
      MqttBrokerClient.handleMessage parseVal isJson topic message =
        [.fired (.statusMessage ⟨s, r, d, f, parseVal message⟩)]) ∧
    (∀ s r d f a, jsSplit '/' message = [s, r, d, f, a] →
      MqttBrokerClient.handleMessage parseVal isJson topic message =
        [.fired (.actionMessage ⟨s, r, d, f, a⟩)]) ∧
    ((jsSplit '/' message).length ≠ 4 → (jsSplit '/' message).length ≠ 5 →
      MqttBrokerClient.handleMessage parseVal isJson topic message =
        [.warn ("Unknown message received on topic \x27" ++ topic ++ "\x27: " ++ message)]) ∧
    ((jsSplit '/' message).length = 4 → isJson message = false →
      MqttBrokerClient.handleMessage parseVal isJson topic message =
        [.warn ("Unknown message received on topic \x27" ++ topic ++ "\x27: " ++ message)]) := by
  refine ⟨?_, ?_, ?_, ?_⟩
  · intro s r d f h hj
    simp [MqttBrokerClient.handleMessage, h, hj]
  · intro s r d f a h
    simp [MqttBrokerClient.handleMessage, h]
  · intro h4 h5
    rcases hl : jsSplit '/' message with
        _ | ⟨a, _ | ⟨b, _ | ⟨c, _ | ⟨d, _ | ⟨e, _ | ⟨f, rest⟩⟩⟩⟩⟩⟩ <;>
      rw [hl] at h4 h5 <;> simp_all [MqttBrokerClient.handleMessage]
  · intro h4 hj
    rcases hl : jsSplit '/' message with
        _ | ⟨a, _ | ⟨b, _ | ⟨c, _ | ⟨d, _ | ⟨e, _ | ⟨f, rest⟩⟩⟩⟩⟩⟩ <;>
      rw [hl] at h4 <;> simp_all [MqttBrokerClient.handleMessage]

/-- Witness for inbound_classification at the concrete payloads of the
spec: a five-segment payload classifies as an action with action
"toggle"; the four-segment payload "mystrom/bedroom/switch-01/relay"
with a JSON oracle rejecting it fires a warning; a four-segment payload
with an accepting oracle dispatches a status message; a one-segment
payload fires a warning. -/
theorem inbound_classification_witness :
    (MqttBrokerClient.handleMessage (fun _ => .boolean true) (fun _ => false)
      "t" "mystrom/bedroom/switch-01/relay/toggle" =
      [.fired (.actionMessage ⟨"mystrom", "bedroom", "switch-01", "relay", "toggle"⟩)]) ∧
    (MqttBrokerClient.handleMessage (fun _ => .boolean true) (fun _ => false)
      "t" "mystrom/bedroom/switch-01/relay" =
      [.warn "Unknown message received on topic \x27t\x27: mystrom/bedroom/switch-01/relay"]) ∧
    (MqttBrokerClient.handleMessage (fun _ => .boolean true) (fun _ => true)
      "t" "a/b/c/d" =
      [.fired (.statusMessage ⟨"a", "b", "c", "d", .boolean true⟩)]) ∧
    (MqttBrokerClient.handleMessage (fun _ => .boolean true) (fun _ => true)
      "t" "noslashes" =
      [.warn "Unknown message received on topic \x27t\x27: noslashes"]) :=
  ⟨(inbound_classification (fun _ => .boolean true) (fun _ => false) "t"
      "mystrom/bedroom/switch-01/relay/toggle").2.1
      "mystrom" "bedroom" "switch-01" "relay" "toggle" (by decide),
   (inbound_classification (fun _ => .boolean true) (fun _ => false) "t"
      "mystrom/bedroom/switch-01/relay").2.2.2 (by decide) rfl,
   (inbound_classification (fun _ => .boolean true) (fun _ => true) "t"
      "a/b/c/d").1 "a" "b" "c" "d" (by decide) rfl,
   (inbound_classification (fun _ => .boolean true) (fun _ => true) "t"
      "noslashes").2.2.1 (by decide) (by decide)⟩

/-- rat235_eq identifies the explicit rational rat235 with the decimal
literal 23.5. -/
theorem rat235_eq : rat235 = 23.5 := by
  rw [rat235, Rat.mk'_eq_divInt]
  norm_num [Rat.divInt_eq_div]

set_option maxRecDepth 40000 in
/-- C1 (evaluation at the failing input): publishing the status message
(loxone, kitchen, touch-switch, temperature, 23.5) at clock value
1700000000000 hands the transport exactly the topic
loxone/kitchen/touch-switch/temperature with body
\x7b"ts":1700000000000,"val":23.5\x7d, as the claim states; but feeding that
exact topic/body pair back through handleMessage does not reconstruct a
status message: handleMessage splits the BODY (which contains no '/')
rather than the topic, obtains one segment, and fires the
unknown-message warning, dropping the message — even with a JSON oracle
that accepts the body and parses its val field to 23.5. -/
theorem roundtrip_fails_at_spec_input :
    (MqttBrokerClient.publishStatus 1700000000000
        ⟨"loxone", "kitchen", "touch-switch", "temperature", .num rat235⟩ false
        ⟨⟨⟨true, 0, 15⟩, true⟩, true, "loxone"⟩).2 =
      [.pub ⟨"loxone/kitchen/touch-switch/temperature",
        "\x7b\"ts\":1700000000000,\"val\":23.5\x7d", false, 2⟩] ∧
    MqttBrokerClient.handleMessage (fun _ => .num rat235) (fun _ => true)
      "loxone/kitchen/touch-switch/temperature"
      "\x7b\"ts\":1700000000000,\"val\":23.5\x7d" =
      [.warn ("Unknown message received on topic \x27loxone/kitchen/touch-switch/temperature\x27: \x7b\"ts\":1700000000000,\"val\":23.5\x7d")] := by
  constructor
  · decide
  · decide

/-- C5: for every status message, publishStatus publishes to the topic
system/room/device/feature with JSON body \x7bts, val\x7d, and for every
action message, publishAction publishes to the topic
system/room/device/feature/action with JSON body \x7bts\x7d carrying no val
and no action field (the action only rides in the topic); both at qos 2
with the caller's retain flag. -/
theorem outbound_wire_format (ts : Int) (m : StatusMessage) (a : ActionMessage)
    (retain : Bool) (c : MqttBrokerClient) (h : c.clientDefined = true) :
    (MqttBrokerClient.publishStatus ts m retain c).2 =
      [.pub ⟨m.system ++ "/" ++ m.room ++ "/" ++ m.device ++ "/" ++ m.feature,
        "\x7b\"ts\":" ++ toString ts ++ ",\"val\":" ++ m.value.toJsonString ++ "\x7d",
        retain, 2⟩] ∧
    (MqttBrokerClient.publishAction ts a retain c).2 =
      [.pub ⟨a.system ++ "/" ++ a.room ++ "/" ++ a.device ++ "/" ++ a.feature ++ "/" ++ a.action,
        "\x7b\"ts\":" ++ toString ts ++ "\x7d", retain, 2⟩] := by
  constructor <;>
    simp [MqttBrokerClient.publishStatus, MqttBrokerClient.publishAction, h,
      statusTopic, actionTopic, statusBody, actionBody]

/-- Witness for outbound_wire_format at a concrete client and concrete
messages. -/
theorem outbound_wire_format_witness :
    (MqttBrokerClient.publishStatus 5 ⟨"a", "b", "c", "d", .str "on"⟩ true
        ⟨⟨⟨true, 0, 15⟩, true⟩, true, "a"⟩).2 =
      [.pub ⟨"a/b/c/d", "\x7b\"ts\":5,\"val\":\"on\"\x7d", true, 2⟩] ∧
    (MqttBrokerClient.publishAction 5 ⟨"a", "b", "c", "d", "e"⟩ false
        ⟨⟨⟨true, 0, 15⟩, true⟩, true, "a"⟩).2 =
      [.pub ⟨"a/b/c/d/e", "\x7b\"ts\":5\x7d", false, 2⟩] := by
  have h := outbound_wire_format 5 ⟨"a", "b", "c", "d", .str "on"⟩
    ⟨"a", "b", "c", "d", "e"⟩ true ⟨⟨⟨true, 0, 15⟩, true⟩, true, "a"⟩ rfl
  have h2 := outbound_wire_format 5 ⟨"a", "b", "c", "d", .str "on"⟩
    ⟨"a", "b", "c", "d", "e"⟩ false ⟨⟨⟨true, 0, 15⟩, true⟩, true, "a"⟩ rfl
  refine ⟨?_, ?_⟩
  · rw [h.1]; decide
  · rw [h2.2]; decide

/-- statusBody_ne_zero: a published status body is a brace-delimited
JSON object, never the one-character connectivity code "0". -/
theorem statusBody_ne_zero (ts : Int) (v : SHValue) : statusBody ts v ≠ "0" := by
  intro h
  have hl := congrArg String.length h
  rw [statusBody, String.length_append, String.length_append, String.length_append,
    String.length_append] at hl
  have h1 : ("\x7b\"ts\":" : String).length = 6 := rfl
  have h2 : (",\"val\":" : String).length = 7 := rfl
  have h3 : ("\x7d" : String).length = 1 := rfl
  have h4 : ("0" : String).length = 1 := rfl
  omega

/-- actionBody_ne_zero: a published action body is a brace-delimited
JSON object, never the one-character connectivity code "0". -/
theorem actionBody_ne_zero (ts : Int) : actionBody ts ≠ "0" := by
  intro h
  have hl := congrArg String.length h
  rw [actionBody, String.length_append, String.length_append] at hl
  have h1 : ("\x7b\"ts\":" : String).length = 6 := rfl
  have h3 : ("\x7d" : String).length = 1 := rfl
  have h4 : ("0" : String).length = 1 := rfl
  omega

/-- handleMessage_no_pub: inbound classification only dispatches events
or warnings; it never publishes to the transport. -/
theorem handleMessage_no_pub (parseVal : String → SHValue) (isJson : String → Bool)
    (topic message : String) (p : TransportPub) :
    ClientAction.pub p ∉ MqttBrokerClient.handleMessage parseVal isJson topic message := by
  unfold MqttBrokerClient.handleMessage
  split <;> first
    | simp
    | (split <;> simp)

/-- C7: on every successful (re)connection the connect callback
publishes the single character "1" to the liveness topic
system/connected (retained, qos 2) as the first action of its trace,
before the connect transition fires; the code "0" appears only in the
last-will options configured once when initialize creates the transport
client, and no entry point of the client ever publishes the payload "0"
(publishConnected only accepts the codes "1" and "2" by the type of its
argument). -/
theorem connectivity_code_protocol :
    (∀ c : MqttBrokerClient, c.clientDefined = true →
      c.handleMqttConnect =
        ({ c with toSmartHomeClientBaseState := (c.toSmartHomeClientBaseState.onConnect).1 },
          .pub ⟨c.system ++ "/connected", "1", true, 2⟩ ::
            (c.toSmartHomeClientBaseState.onConnect).2.map ClientAction.fired)) ∧
    (∀ c : MqttBrokerClient, c.initialized = false →
      (c.mqttInit).2.1 = some ⟨c.system ++ "/connected", "0", true, 2⟩) ∧
    (∀ (parseVal : String → SHValue) (isJson : String → Bool)
        (c : MqttBrokerClient) (call : AppCall) (p : TransportPub),
      ClientAction.pub p ∈ (MqttBrokerClient.step parseVal isJson c call).2 →
      p.payload ≠ "0") := by
  refine ⟨?_, ?_, ?_⟩
  · intro c h
    simp [MqttBrokerClient.handleMqttConnect, MqttBrokerClient.publishConnected, h,
      connectedTopic, ConnCode.toStr]
  · intro c h
    simp [MqttBrokerClient.mqttInit, h, connectedTopic]
  · intro parseVal isJson c call p hp
    cases call with
    | mqttInitCall =>
        rw [MqttBrokerClient.step, MqttBrokerClient.mqttInit] at hp
        split at hp <;> simp_all
    | mqttConnectCb =>
        rw [MqttBrokerClient.step, MqttBrokerClient.handleMqttConnect] at hp
        simp only [MqttBrokerClient.publishConnected] at hp
        split at hp <;> simp_all [ConnCode.toStr]
    | mqttCloseCb =>
        rw [MqttBrokerClient.step, MqttBrokerClient.handleMqttClose] at hp
        simp_all
    | message topic payload =>
        rw [MqttBrokerClient.step] at hp
        exact absurd hp (handleMessage_no_pub parseVal isJson topic payload p)
    | subStatus s r d f =>
        rw [MqttBrokerClient.step, MqttBrokerClient.subscribeStatus] at hp
        split at hp <;> simp_all
    | subAction s r d f a =>
        rw [MqttBrokerClient.step, MqttBrokerClient.subscribeAction] at hp
        split at hp <;> simp_all
    | pubStatus now m retain =>
        rw [MqttBrokerClient.step, MqttBrokerClient.publishStatus] at hp
        split at hp <;> simp_all
        exact statusBody_ne_zero now m.value
    | pubAction now m retain =>
        rw [MqttBrokerClient.step, MqttBrokerClient.publishAction] at hp
        split at hp <;> simp_all
        exact actionBody_ne_zero now
    | pubConnected code =>
        rw [MqttBrokerClient.step, MqttBrokerClient.publishConnected] at hp
        split at hp <;> cases code <;> simp_all [ConnCode.toStr]

/-- Witness for connectivity_code_protocol: on a concrete initialized,
not yet connected client the connect callback first publishes "1" to
loxone/connected and then fires the connect event; initialize on a
fresh client configures the last-will payload "0"; and the publish the
pubConnected entry point emits has a payload different from "0". -/
theorem connectivity_code_protocol_witness :
    (MqttBrokerClient.handleMqttConnect ⟨⟨⟨true, 0, 15⟩, false⟩, true, "loxone"⟩).2 =
      [.pub ⟨"loxone/connected", "1", true, 2⟩, .fired (.connect false)] ∧
    (MqttBrokerClient.mqttInit ⟨⟨⟨false, 0, 15⟩, false⟩, false, "loxone"⟩).2.1 =
      some ⟨"loxone/connected", "0", true, 2⟩ ∧
    (⟨"loxone/connected", "1", true, 2⟩ : TransportPub).payload ≠ "0" := by
  have h := connectivity_code_protocol
  refine ⟨?_, ?_, ?_⟩
  · rw [h.1 ⟨⟨⟨true, 0, 15⟩, false⟩, true, "loxone"⟩ rfl]
    decide
  · rw [h.2.1 ⟨⟨⟨false, 0, 15⟩, false⟩, false, "loxone"⟩ rfl]
    decide
  · exact h.2.2 (fun _ => .boolean true) (fun _ => true)
      ⟨⟨⟨true, 0, 15⟩, false⟩, true, "loxone"⟩ (.pubConnected .one) _ (by decide)

/-- C8 counterexample: a client whose transport handle exists but whose
connected flag is false (initialized, currently disconnected) does NOT
no-op with a warning on publishStatus: the call hands the transport
exactly one publish and fires no warning, refuting the claim for the
disconnected-but-initialized case. -/
theorem publish_while_disconnected_not_dropped :
    ((MqttBrokerClient.publishStatus 0 ⟨"a", "b", "c", "d", .boolean true⟩ false
        ⟨⟨⟨true, 0, 15⟩, false⟩, true, "loxone"⟩).2.countP isPubAction = 1) ∧
    ((MqttBrokerClient.publishStatus 0 ⟨"a", "b", "c", "d", .boolean true⟩ false
        ⟨⟨⟨true, 0, 15⟩, false⟩, true, "loxone"⟩).2.countP isWarnAction = 0) ∧
    (MqttBrokerClient.publishStatus 0 ⟨"a", "b", "c", "d", .boolean true⟩ false
        ⟨⟨⟨true, 0, 15⟩, false⟩, true, "loxone"⟩).1 =
      ⟨⟨⟨true, 0, 15⟩, false⟩, true, "loxone"⟩ := by
  refine ⟨?_, ?_, ?_⟩ <;> decide

/-- C8 as amended: the no-op-with-warning guard tests only whether the
client is uninitialized (no transport handle): in that case
publishStatus, publishAction, subscribeStatus and subscribeAction
perform no transport operation, fire exactly the warning, drop the
message and leave the state unchanged; a client with a transport handle
performs the transport call regardless of the connected flag. -/
theorem unusable_client_noop_warning
    (ts : Int) (m : StatusMessage) (am : ActionMessage) (retain : Bool)
    (s r d f a : String) (c : MqttBrokerClient) :
    (c.clientDefined = false →
      MqttBrokerClient.publishStatus ts m retain c =
        (c, [.warn "MQTT broker not initialized, unable to publish the status message."]) ∧
      MqttBrokerClient.publishAction ts am retain c =
        (c, [.warn "MQTT broker not initialized, unable to publish the action message."]) ∧
      MqttBrokerClient.subscribeStatus s r d f c =
        (c, [.warn "MQTT broker not initialized, unable to subscribe to status message."]) ∧
      MqttBrokerClient.subscribeAction s r d f a c =
        (c, [.warn "MQTT broker not initialized, unable to subscribe to action message."])) ∧
    (c.clientDefined = true →
      (MqttBrokerClient.publishStatus ts m retain c).2 =
        [.pub ⟨statusTopic m, statusBody ts m.value, retain, 2⟩] ∧
      (MqttBrokerClient.publishAction ts am retain c).2 =
        [.pub ⟨actionTopic am, actionBody ts, retain, 2⟩] ∧
      (MqttBrokerClient.subscribeStatus s r d f c).2 =
        [.sub (s ++ "/" ++ r ++ "/" ++ d ++ "/" ++ f)] ∧
      (MqttBrokerClient.subscribeAction s r d f a c).2 =
        [.sub (s ++ "/" ++ r ++ "/" ++ d ++ "/" ++ f ++ "/" ++ a)]) := by
  constructor <;> intro h <;>
    simp [MqttBrokerClient.publishStatus, MqttBrokerClient.publishAction,
      MqttBrokerClient.subscribeStatus, MqttBrokerClient.subscribeAction, h]

/-- Witness for unusable_client_noop_warning at a concrete uninitialized
client and a concrete initialized, disconnected client. -/
theorem unusable_client_noop_warning_witness :
    (MqttBrokerClient.publishStatus 0 ⟨"a", "b", "c", "d", .boolean true⟩ false
        ⟨⟨⟨false, 0, 15⟩, false⟩, false, "loxone"⟩ =
      (⟨⟨⟨false, 0, 15⟩, false⟩, false, "loxone"⟩,
        [.warn "MQTT broker not initialized, unable to publish the status message."])) ∧
    ((MqttBrokerClient.subscribeStatus "a" "+" "+" "+"
        ⟨⟨⟨true, 0, 15⟩, false⟩, true, "loxone"⟩).2 = [.sub "a/+/+/+"]) := by
  have h1 := (unusable_client_noop_warning 0 ⟨"a", "b", "c", "d", .boolean true⟩
    ⟨"a", "b", "c", "d", "e"⟩ false "a" "+" "+" "+" "+"
    ⟨⟨⟨false, 0, 15⟩, false⟩, false, "loxone"⟩).1 rfl
  have h2 := (unusable_client_noop_warning 0 ⟨"a", "b", "c", "d", .boolean true⟩
    ⟨"a", "b", "c", "d", "e"⟩ false "a" "+" "+" "+" "+"
    ⟨⟨⟨true, 0, 15⟩, false⟩, true, "loxone"⟩).2 rfl
  refine ⟨h1.1, ?_⟩
  rw [h2.2.2.1]
  decide

/-- regSubsApp: applying a sequence of subscribe requests appends their
topic filters to the registry in order and changes nothing else. -/
theorem regSubsApp (reqs : List SubReq) : ∀ c : MqttRegClient,
    (applySubReqs c reqs).1.subscriptions = c.subscriptions ++ reqs.map subReqTopic ∧
    (applySubReqs c reqs).1.system = c.system ∧
    (applySubReqs c reqs).1.connected = c.connected := by
  induction reqs with
  | nil => intro c; simp [applySubReqs]
  | cons req rest ih =>
      intro c
      cases req <;>
        simp [applySubReqs, applySubReq, MqttRegClient.subscribeStatusReg,
          MqttRegClient.subscribeActionReg, subReqTopic, ih]

/-- C6 (spec-modelled): every topic filter passed to a subscribe call is
appended to the ordered Subscription Registry — insertion order
preserved and duplicates kept, since append never deduplicates — and on
a reconnect event the client re-issues one transport subscribe per
registry entry, in registry order, duplicates included. -/
theorem subscription_registry_replay (c : MqttRegClient) (reqs : List SubReq) :
    (applySubReqs c reqs).1.subscriptions = c.subscriptions ++ reqs.map subReqTopic ∧
    (applySubReqs c reqs).1.replayOnConnect =
      (c.subscriptions ++ reqs.map subReqTopic).map ClientAction.sub := by
  refine ⟨(regSubsApp reqs c).1, ?_⟩
  rw [MqttRegClient.replayOnConnect, (regSubsApp reqs c).1]

/-- C9 (spec-modelled): setDeviceConnectedCallback registers the
injected predicate, and with a registered predicate every tick of the
device-liveness timer publishes exactly one retained qos-2 message to
system/connected whose payload is "2" when the predicate returned true
and "1" when it returned false — one publish per tick, each depending
only on that tick's predicate result, never on the previously published
value. -/
theorem device_liveness_watchdog (w : DeviceWatchdog) (sys : String)
    (results : List Bool) :
    (w.setDeviceConnectedCallback).cbRegistered = true ∧
    DeviceWatchdog.run ⟨sys, true⟩ results =
      results.map (fun b => .pub ⟨sys ++ "/connected", if b then "2" else "1", true, 2⟩) := by
  refine ⟨rfl, ?_⟩
  induction results with
  | nil => rfl
  | cons b rest ih => simp [DeviceWatchdog.run, DeviceWatchdog.tick, ih]
